import Mathlib

/-!
Verification of the todo-app state-management logic (src/src/App.tsx).

The React component `App` owns the in-memory state: the todo collection,
the status filter, the error message, the creation placeholder (`tempTodo`),
the input title, and the pending-operation id list (`isLoadingTodo`).
We shallowly embed each handler as a pure state transformer, making the
outcome of each API call an explicit parameter (`success : Bool`, or the
server-returned record for `create`).
-/

namespace TodoApp

/-- Todo record: { id, userId, title, completed } (src/types/Todo). -/
structure Todo where
  id : Nat
  userId : Nat
  title : String
  completed : Bool
deriving Repr, DecidableEq

/-- Modelled from the spec: the enumeration `TodoStatusFilter`
(src/types/TodoStatusFilter is not under src/); spec §3:
"Status filter: enumeration {All, Active, Completed}". -/
inductive TodoStatusFilter where
  | All
  | Active
  | Completed
deriving Repr, DecidableEq

/-- Modelled from the spec: `getFilteredTodos` (src/helpers.ts is not under
src/); spec §4.2: "given the full collection and a status filter, returns the
subset matching {All: everything, Active: completed = false,
Completed: completed = true}". -/
def getFilteredTodos (todos : List Todo) (filter : TodoStatusFilter) : List Todo :=
  match filter with
  | .All => todos
  | .Active => todos.filter (fun t => !t.completed)
  | .Completed => todos.filter (fun t => t.completed)

/-- Source: `const USER_ID = 10884;` (App.tsx line 13). -/
def USER_ID : Nat := 10884

/-- The state owned by `App` (App.tsx lines 16-21). -/
structure AppState where
  todos : List Todo
  statusFilter : TodoStatusFilter
  error : Option String
  tempTodo : Option Todo
  inputTitle : String
  isLoadingTodo : List Nat
deriving Repr, DecidableEq

/-- Initial state (App.tsx lines 16-21): empty collection, filter `All`,
no error, no placeholder, empty input, pending list `[0]`. -/
def initialState : AppState :=
  { todos := []
    statusFilter := .All
    error := none
    tempTodo := none
    inputTitle := ""
    isLoadingTodo := [0] }

/-- A `Partial<Todo>` value: each field optionally present. -/
structure TodoPatch where
  id : Option Nat := none
  userId : Option Nat := none
  title : Option String := none
  completed : Option Bool := none
deriving Repr, DecidableEq

/-- The object spread `{ ...todo, ...dataToEdit }` (App.tsx line 117):
fields present in the patch override the record's fields. -/
def applyPatch (p : TodoPatch) (t : Todo) : Todo :=
  { id := p.id.getD t.id
    userId := p.userId.getD t.userId
    title := p.title.getD t.title
    completed := p.completed.getD t.completed }

/-- The `addTodo` handler, phase before the `await` (App.tsx lines 62-69): build the
candidate record and display it as the id-0 placeholder. -/
def addTodoStart (todoTitle : String) (st : AppState) : AppState :=
  { st with tempTodo := some { id := 0, userId := USER_ID, title := todoTitle, completed := false } }

/-- The `addTodo` handler, settlement (App.tsx lines 71-80): on success append the
server-returned record; on failure set the error; in both cases (`finally`)
clear the placeholder and reset the input title. -/
def addTodoSettle (result : Option Todo) (st : AppState) : AppState :=
  let st1 :=
    match result with
    | some createdTodo => { st with todos := st.todos ++ [createdTodo] }
    | none => { st with error := some "Unable to add a todo" }
  { st1 with tempTodo := none, inputTitle := "" }

/-- The `addTodo` handler from call to settlement, with the API outcome explicit. -/
def addTodo (todoTitle : String) (result : Option Todo) (st : AppState) : AppState :=
  addTodoSettle result (addTodoStart todoTitle st)

/-- The `removeTodo` handler, phase before the `await` (App.tsx line 88): mark the id
as pending (`[...currentTodoIds, todoId]`). -/
def removeTodoStart (todoId : Nat) (st : AppState) : AppState :=
  { st with isLoadingTodo := st.isLoadingTodo ++ [todoId] }

/-- The `removeTodo` handler, settlement (App.tsx lines 89-99): on success filter the
record out of the collection; on failure set the error; `finally` filter the
id out of the pending list. -/
def removeTodoSettle (todoId : Nat) (success : Bool) (st : AppState) : AppState :=
  let st1 :=
    if success then
      { st with todos := st.todos.filter (fun todo => todo.id ≠ todoId) }
    else
      { st with error := some "Unable to delete a todo" }
  { st1 with isLoadingTodo := st1.isLoadingTodo.filter (fun id => id ≠ todoId) }

/-- The `removeTodo` handler from call to settlement, with the API outcome explicit. -/
def removeTodo (todoId : Nat) (success : Bool) (st : AppState) : AppState :=
  removeTodoSettle todoId success (removeTodoStart todoId st)

/-- The successful local merge of an edit (App.tsx lines 111-119):
map over the collection, patching the matching id. -/
def editTodoMerge (todoId : Nat) (dataToEdit : TodoPatch) (todos : List Todo) : List Todo :=
  todos.map (fun todo => if todo.id ≠ todoId then todo else applyPatch dataToEdit todo)

/-- The `editTodo` handler, phase before the `await` (App.tsx line 109): mark the id
as pending. -/
def editTodoStart (todoId : Nat) (st : AppState) : AppState :=
  { st with isLoadingTodo := st.isLoadingTodo ++ [todoId] }

/-- The `editTodo` handler, settlement (App.tsx lines 110-126): on success merge the
changed fields into the matching record; on failure set the error; `finally`
filter the id out of the pending list. -/
def editTodoSettle (todoId : Nat) (dataToEdit : TodoPatch) (success : Bool)
    (st : AppState) : AppState :=
  let st1 :=
    if success then
      { st with todos := editTodoMerge todoId dataToEdit st.todos }
    else
      { st with error := some "Unable to update a todo" }
  { st1 with isLoadingTodo := st1.isLoadingTodo.filter (fun id => id ≠ todoId) }

/-- The `editTodo` handler from call to settlement, with the API outcome explicit. -/
def editTodo (todoId : Nat) (dataToEdit : TodoPatch) (success : Bool)
    (st : AppState) : AppState :=
  editTodoSettle todoId dataToEdit success (editTodoStart todoId st)

/-- The list of completed-flag edits issued by `handleToggleCompletedToActive`
(App.tsx lines 139-149), in issue order: if every record is completed, an edit
`{completed: false}` for every record; otherwise an edit `{completed: true}`
for each not-completed record and none for the rest. -/
def toggleEdits (todos : List Todo) : List (Nat × Bool) :=
  let areAllCompleted := todos.all (fun todo => todo.completed)
  todos.filterMap (fun todo =>
    if areAllCompleted then some (todo.id, false)
    else if !todo.completed then some (todo.id, true)
    else none)

/-- Apply a list of completed-flag edits, each via the successful local
merge of `editTodo`. -/
def applyCompletedEdits (edits : List (Nat × Bool)) (todos : List Todo) : List Todo :=
  edits.foldl (fun ts e => editTodoMerge e.1 { completed := some e.2 } ts) todos

/-- One bulk toggle with every issued edit succeeding. -/
def bulkToggle (todos : List Todo) : List Todo :=
  applyCompletedEdits (toggleEdits todos) todos

/-- Source: `const activeTodosCount = todos.filter((todo) => !todo.completed).length;`
(App.tsx line 155). -/
def activeTodosCount (todos : List Todo) : Nat :=
  (todos.filter (fun todo => !todo.completed)).length

/-- Source: `const completedTodosCount = todos.filter((todo) => todo.completed).length;`
(App.tsx line 156). -/
def completedTodosCount (todos : List Todo) : Nat :=
  (todos.filter (fun todo => todo.completed)).length

/-- Source: `const isVisibleClearCompleted = completedTodosCount > 0;` (App.tsx line 158). -/
def isVisibleClearCompleted (todos : List Todo) : Bool :=
  decide (completedTodosCount todos > 0)

/-- Source: `const isVisibleTodoList = todos.length > 0;` (App.tsx line 159); the list
and the footer are both rendered under this flag (App.tsx lines 179-197). -/
def isVisibleTodoList (todos : List Todo) : Bool :=
  decide (todos.length > 0)

/-- Source: `const isActiveToggleAllActive = completedTodosCount === todos.length;`
(App.tsx line 162). -/
def isActiveToggleAllActive (todos : List Todo) : Bool :=
  decide (completedTodosCount todos = todos.length)

/-- The state relevant to the error auto-dismiss effect (App.tsx lines 33-43):
the error message and the running `setTimeout` timer, modelled as its
remaining milliseconds. -/
structure ErrorTimerState where
  error : Option String
  timer : Option Nat
deriving Repr, DecidableEq

/-- JavaScript truthiness of `error : string | null`: `null` and the empty
string are falsy. -/
def truthyError : Option String → Bool
  | none => false
  | some s => s != ""

/-- The `useEffect` on `[error]` (App.tsx lines 33-43), run when `error`
changes: the cleanup clears the previous timer; if the new error is truthy a
fresh 3000 ms timer is started. -/
def errorChangeEffect (st : ErrorTimerState) : ErrorTimerState :=
  { st with timer := if truthyError st.error then some 3000 else none }

/-- A change of the error message (via `setError`) together with the effect it
triggers. -/
def setErrorEvent (s : Option String) (st : ErrorTimerState) : ErrorTimerState :=
  errorChangeEffect { st with error := s }

/-- Let `d` milliseconds pass with no intervening event: a running timer that
reaches zero fires `setError(null)` (App.tsx lines 37-39), clearing the error;
the re-triggered effect leaves no timer running. -/
def elapse (d : Nat) (st : ErrorTimerState) : ErrorTimerState :=
  match st.timer with
  | none => st
  | some r => if d < r then { st with timer := some (r - d) } else { error := none, timer := none }

/-- The operations performed on the pending list `isLoadingTodo`:
`removeTodo`/`editTodo` append their id before the `await`
(App.tsx lines 88, 109) and filter it out in `finally`
(App.tsx lines 96-98, 123-125). -/
inductive PendingOp where
  | insert (id : Nat)
  | settle (id : Nat)
deriving Repr, DecidableEq

/-- The id a pending-list operation acts on. -/
def PendingOp.opId : PendingOp → Nat
  | .insert id => id
  | .settle id => id

/-- Here `insert id` is `[...currentTodoIds, todoId]`; `settle id` is
`currentTodos.filter((id) => id !== todoId)`. -/
def applyPendingOp (l : List Nat) : PendingOp → List Nat
  | .insert id => l ++ [id]
  | .settle id => l.filter (fun x => x ≠ id)

/-- Run a trace of pending-list operations from the initial value `[0]`
(App.tsx line 21). -/
def runPending (ops : List PendingOp) : List Nat :=
  ops.foldl applyPendingOp initialState.isLoadingTodo

/-- C2: when the API call of a remove or edit operation fails, the todo
collection is exactly what it was before the operation, and the error message
is "Unable to delete a todo" (remove) resp. "Unable to update a todo" (edit). -/
theorem failure_leaves_collection_unchanged (st : AppState) (todoId : Nat) (p : TodoPatch) :
    (removeTodo todoId false st).todos = st.todos ∧
    (removeTodo todoId false st).error = some "Unable to delete a todo" ∧
    (editTodo todoId p false st).todos = st.todos ∧
    (editTodo todoId p false st).error = some "Unable to update a todo" := by
  refine ⟨rfl, rfl, rfl, rfl⟩

/-- C3: `addTodo` first sets the placeholder to the id-0 candidate record;
on success it appends exactly the server-returned record; on failure it sets
the error "Unable to add a todo" and leaves the collection unchanged; in both
outcomes the placeholder is cleared and the input title reset to "". -/
theorem addTodo_spec (st : AppState) (todoTitle : String) (created : Todo) :
    (addTodoStart todoTitle st).tempTodo =
      some { id := 0, userId := USER_ID, title := todoTitle, completed := false } ∧
    (addTodo todoTitle (some created) st).todos = st.todos ++ [created] ∧
    (addTodo todoTitle none st).todos = st.todos ∧
    (addTodo todoTitle none st).error = some "Unable to add a todo" ∧
    (addTodo todoTitle (some created) st).tempTodo = none ∧
    (addTodo todoTitle none st).tempTodo = none ∧
    (addTodo todoTitle (some created) st).inputTitle = "" ∧
    (addTodo todoTitle none st).inputTitle = "" := by
  refine ⟨rfl, rfl, rfl, rfl, rfl, rfl, rfl, rfl⟩

/-- C4: filtering with `All` returns the input unchanged; `Active` keeps
exactly the records with `completed = false` in order; `Completed` keeps
exactly the complement, the records with `completed = true`. (The embedding
is a pure function, so determinism and absence of side effects hold by
construction.) -/
theorem getFilteredTodos_spec (todos : List Todo) :
    getFilteredTodos todos .All = todos ∧
    getFilteredTodos todos .Active = todos.filter (fun t => t.completed = false) ∧
    getFilteredTodos todos .Completed = todos.filter (fun t => t.completed = true) := by
  refine ⟨rfl, ?_, ?_⟩ <;>
    · simp only [getFilteredTodos]
      congr 1
      funext t
      cases t.completed <;> simp

/-- C5: after a single remove or edit operation on an id has settled
(succeeded or failed), that id is absent from the pending list. -/
theorem settled_id_not_pending (st : AppState) (todoId : Nat) (p : TodoPatch) (success : Bool) :
    todoId ∉ (removeTodo todoId success st).isLoadingTodo ∧
    todoId ∉ (editTodo todoId p success st).isLoadingTodo := by
  cases success <;>
    simp [removeTodo, removeTodoSettle, removeTodoStart,
      editTodo, editTodoSettle, editTodoStart, List.mem_filter]

/-- C7: the successful local merge of `edit(id, {completed: b})` is
idempotent: applying it twice equals applying it once. -/
theorem completed_edit_idempotent (todos : List Todo) (todoId : Nat) (b : Bool) :
    editTodoMerge todoId { completed := some b } (editTodoMerge todoId { completed := some b } todos) =
      editTodoMerge todoId { completed := some b } todos := by
  induction todos with
  | nil => rfl
  | cons t ts ih =>
      simp only [editTodoMerge, List.map_cons] at ih ⊢
      rw [ih]
      by_cases h : t.id = todoId <;> simp [h, applyPatch]

/-- C8: the active count is the number of records with `completed = false`,
the completed count the number with `completed = true`; the list/footer is
visible iff the collection is non-empty; "clear completed" is visible iff the
completed count is positive; the "toggle all" control is active iff the
completed count equals the total count. -/
theorem derived_values_spec (todos : List Todo) :
    activeTodosCount todos = todos.countP (fun t => t.completed = false) ∧
    completedTodosCount todos = todos.countP (fun t => t.completed = true) ∧
    (isVisibleTodoList todos = true ↔ todos ≠ []) ∧
    (isVisibleClearCompleted todos = true ↔ 0 < completedTodosCount todos) ∧
    (isActiveToggleAllActive todos = true ↔ completedTodosCount todos = todos.length) := by
  refine ⟨?_, ?_, ?_, ?_, ?_⟩
  · simp only [activeTodosCount, ← List.countP_eq_length_filter]
    congr 1
    funext t
    cases t.completed <;> simp
  · simp only [completedTodosCount, ← List.countP_eq_length_filter]
    congr 1
    funext t
    cases t.completed <;> simp
  · simp only [isVisibleTodoList, decide_eq_true_eq]
    exact List.length_pos_iff_ne_nil
  · simp only [isVisibleClearCompleted, decide_eq_true_eq]
  · simp only [isActiveToggleAllActive, decide_eq_true_eq]

/-- C6 counterexample: with two edit operations on id 5 in flight concurrently
(two pending inserts of 5), the first settlement already leaves the pending
list at `[0]` — id 5 is NOT still recorded as pending, contrary to the claim. -/
theorem concurrent_pending_counterexample :
    (editTodoSettle 5 { completed := some true } true
        (editTodoStart 5 (editTodoStart 5 initialState))).isLoadingTodo = [0] ∧
    ((editTodoSettle 5 { completed := some true } true
        (editTodoStart 5 (editTodoStart 5 initialState))).isLoadingTodo.contains 5) = false := by
  constructor <;> rfl

/-- C6 amended: a settlement's `filter` removes every membership of its id
from the pending list, so when two operations on the same id are in flight,
the id is already absent after the first of the two settles. -/
theorem settle_removes_all_memberships (st : AppState) (todoId : Nat) (p : TodoPatch)
    (success : Bool) :
    todoId ∉ (editTodoSettle todoId p success
        (editTodoStart todoId (editTodoStart todoId st))).isLoadingTodo ∧
    todoId ∉ (removeTodoSettle todoId success
        (removeTodoStart todoId (removeTodoStart todoId st))).isLoadingTodo := by
  cases success <;>
    simp [editTodoSettle, editTodoStart, removeTodoSettle, removeTodoStart, List.mem_filter]

/-- C9: a change to a non-empty error message starts a 3000 ms timer; if
3000 ms elapse with no further event the error is cleared automatically and no
timer remains; a further new error while the timer runs restarts a fresh
3000 ms timer; an explicit dismissal (error set to null) cancels the timer. -/
theorem error_auto_dismiss_spec (st : ErrorTimerState) (s s2 : String)
    (hs : s ≠ "") (hs2 : s2 ≠ "") :
    (setErrorEvent (some s) st).timer = some 3000 ∧
    elapse 3000 (setErrorEvent (some s) st) = { error := none, timer := none } ∧
    (setErrorEvent (some s2) (setErrorEvent (some s) st)).timer = some 3000 ∧
    setErrorEvent none st = { error := none, timer := none } := by
  simp [setErrorEvent, errorChangeEffect, truthyError, elapse, hs, hs2]

/-- Witness for C9 at a concrete state and concrete error messages. -/
theorem error_auto_dismiss_spec_witness :
    (setErrorEvent (some "Unable to add a todo") { error := none, timer := none }).timer
      = some 3000 ∧
    elapse 3000 (setErrorEvent (some "Unable to add a todo") { error := none, timer := none })
      = { error := none, timer := none } ∧
    (setErrorEvent (some "Unable to update a todo")
        (setErrorEvent (some "Unable to add a todo")
          { error := none, timer := none })).timer = some 3000 ∧
    setErrorEvent none { error := none, timer := none } = { error := none, timer := none } :=
  error_auto_dismiss_spec { error := none, timer := none }
    "Unable to add a todo" "Unable to update a todo" (by decide) (by decide)

/-- Any pending-list trace whose operations all act on nonzero ids keeps 0 a
member, starting from any list containing 0. -/
theorem zero_mem_foldl_pending (ops : List PendingOp) :
    ∀ l : List Nat, 0 ∈ l → (∀ op ∈ ops, op.opId ≠ 0) →
      0 ∈ ops.foldl applyPendingOp l := by
  induction ops with
  | nil => intro l hl _; simpa using hl
  | cons op ops ih =>
      intro l hl hops
      simp only [List.foldl_cons]
      refine ih _ ?_ (fun o ho => hops o (by simp [ho]))
      cases op with
      | insert id => simp [applyPendingOp, hl]
      | settle id =>
          have hid : id ≠ 0 := hops (.settle id) (by simp)
          simp [applyPendingOp, List.mem_filter, hl, Ne.symm hid]

/-- C10: the pending list starts as `[0]`; along any trace of insertions and
settlements acting only on nonzero (server-assigned) ids, 0 stays a member, so
the pending list is never empty. -/
theorem pending_list_never_empty (ops : List PendingOp)
    (h : ∀ op ∈ ops, op.opId ≠ 0) :
    initialState.isLoadingTodo = [0] ∧
    0 ∈ runPending ops ∧
    runPending ops ≠ [] := by
  have h0 : 0 ∈ runPending ops :=
    zero_mem_foldl_pending ops initialState.isLoadingTodo (by simp [initialState]) h
  exact ⟨rfl, h0, List.ne_nil_of_mem h0⟩

/-- Witness for C10 on the trace of one remove/edit of id 5. -/
theorem pending_list_never_empty_witness :
    (∀ op ∈ ([PendingOp.insert 5, PendingOp.settle 5] : List PendingOp), op.opId ≠ 0) ∧
    (initialState.isLoadingTodo = [0] ∧
      0 ∈ runPending [PendingOp.insert 5, PendingOp.settle 5] ∧
      runPending [PendingOp.insert 5, PendingOp.settle 5] ≠ []) :=
  ⟨by decide, pending_list_never_empty [PendingOp.insert 5, PendingOp.settle 5] (by decide)⟩

/-- Characterisation of the edits issued by one bulk toggle: when all records
are completed, a `completed := false` edit per record; otherwise a
`completed := true` edit for exactly the not-completed records. -/
theorem toggleEdits_eq (todos : List Todo) :
    toggleEdits todos =
      (if todos.all (fun t => t.completed) then todos.map (fun t => (t.id, false))
       else (todos.filter (fun t => !t.completed)).map (fun t => (t.id, true))) := by
  by_cases hall : todos.all (fun t => t.completed)
  · simp only [toggleEdits, hall, if_true]
    clear hall
    induction todos with
    | nil => rfl
    | cons t ts ih => simp [List.filterMap_cons, ih]
  · have hall' : todos.all (fun t => t.completed) = false := by simpa using hall
    simp only [toggleEdits, hall', if_false, Bool.false_eq_true]
    clear hall hall'
    induction todos with
    | nil => rfl
    | cons t ts ih =>
        simp only [Bool.not_eq_true'] at ih
        by_cases hc : t.completed <;>
          simp [List.filterMap_cons, List.filter_cons, hc, ih]

/-- C1: the bulk toggle issues `completed := false` edits for every record
when all are completed, and `completed := true` edits for exactly the
not-completed records otherwise; starting from two records with one completed
and one not, one bulk toggle (all edits succeeding) makes both completed, and
a second makes both not-completed. -/
theorem handleToggleCompletedToActive_spec (todos : List Todo) (t1 t2 : Todo)
    (h1 : t1.completed = true) (h2 : t2.completed = false) :
    toggleEdits todos =
      (if todos.all (fun t => t.completed) then todos.map (fun t => (t.id, false))
       else (todos.filter (fun t => !t.completed)).map (fun t => (t.id, true))) ∧
    (bulkToggle [t1, t2]).map (fun t => t.completed) = [true, true] ∧
    (bulkToggle (bulkToggle [t1, t2])).map (fun t => t.completed) = [false, false] := by
  refine ⟨toggleEdits_eq todos, ?_, ?_⟩ <;>
    · rcases eq_or_ne t1.id t2.id with hid | hid
      · simp [bulkToggle, toggleEdits, applyCompletedEdits, editTodoMerge, applyPatch,
          h1, h2, hid]
      · simp [bulkToggle, toggleEdits, applyCompletedEdits, editTodoMerge, applyPatch,
          h1, h2, hid, hid.symm]

/-- Witness for C1: the empty collection and a concrete completed/not-completed
pair of records. -/
theorem handleToggleCompletedToActive_spec_witness :
    (toggleEdits ([] : List Todo) =
      (if ([] : List Todo).all (fun t => t.completed)
       then ([] : List Todo).map (fun t => (t.id, false))
       else (([] : List Todo).filter (fun t => !t.completed)).map (fun t => (t.id, true)))) ∧
    (bulkToggle [(⟨1, 10884, "wash dishes", true⟩ : Todo),
        (⟨2, 10884, "buy milk", false⟩ : Todo)]).map (fun t => t.completed) = [true, true] ∧
    (bulkToggle (bulkToggle [(⟨1, 10884, "wash dishes", true⟩ : Todo),
        (⟨2, 10884, "buy milk", false⟩ : Todo)])).map (fun t => t.completed) = [false, false] :=
  handleToggleCompletedToActive_spec [] ⟨1, 10884, "wash dishes", true⟩
    ⟨2, 10884, "buy milk", false⟩ rfl rfl

end TodoApp
